import Mathlib

/-!
Verification development for the call-bridge session of `src/outbound-calls.js`.

The WebSocket route handler for `/outbound-media-stream` owns, per call, the
mutable closure variables `streamSid`, `callSid`, `elevenLabsWs`,
`customParameters` and `conversationData`, and reacts to events arriving on
the Twilio socket (`ws`) and the ElevenLabs socket (`elevenLabsWs`).  We embed
that handler as a pure step function over an explicit `SessionState`, with the
asynchronous inbound events serialized into one event list (the Node event
loop runs the handlers one at a time).  Wall-clock reads
(`new Date().toISOString()`) are modelled by a `Nat` clock carried on each
inbound event; network sends (`ws.send`, `elevenLabsWs.send`, the storage
upload) are modelled by appending to output logs in the state.
-/

namespace AICall

/-- Speakers appearing in transcript rows. -/
inductive Speaker
  | System
  | User
  | Bot
deriving DecidableEq, Repr

/-- One row of `conversationData` (the objects pushed by the handlers). -/
structure TranscriptEvent where
  timestamp : Nat
  speaker : Speaker
  messageType : String
  content : String
  sizeBytes : Nat
  additionalInfo : String
deriving DecidableEq, Repr

/-- WebSocket readyState values (`ws` library constants). -/
inductive ReadyState
  | CONNECTING
  | OPEN
  | CLOSING
  | CLOSED
deriving DecidableEq, Repr

/-- A parsed Twilio frame (`msg` after `JSON.parse` in the `ws` message handler). -/
inductive TwilioMsg
  | start (streamSid callSid : String) (customParameters : Option String)
  | media (payload : String)
  | stop
  | other (event : String)
deriving DecidableEq, Repr

/-- A parsed ElevenLabs frame (`message` after `JSON.parse`).  For `audio`
frames we keep both raw fields `message.audio?.chunk` and
`message.audio_base64` (`none` = field absent).  For `agent_response` /
`agent_response_correction` we keep `message.text` and the
`JSON.stringify(message)` fallback as opaque strings.  Unrecognized types fall
into `other`, carrying `message.type` and `JSON.stringify(message)`. -/
inductive ElevenMsg
  | audio (audioChunkField audioBase64Field : Option String)
  | agentResponse (correction : Bool) (text : Option String) (serialized : String)
  | interruption
  | ping (eventId : Option String)
  | other (msgType serialized : String)
deriving DecidableEq, Repr

/-- Frames sent to Twilio via `ws.send`. -/
inductive TwilioOutFrame
  | media (streamSid payload contentType : String)
  | clear (streamSid : String)
deriving DecidableEq, Repr

/-- Frames sent to ElevenLabs via `elevenLabsWs.send`. -/
inductive ElevenOutFrame
  | initConfig (prompt : String)
  | userAudioChunk (payload : String)
  | pong (eventId : String)
deriving DecidableEq, Repr

/-- The serialized inbound events a session reacts to: outcomes of the
`setupElevenLabs` async task, ElevenLabs socket events, and Twilio socket
events.  Each carries the wall clock at the moment its handler runs. -/
inductive SessionEvent
  | elevenSetupOk (now : Nat)
  | elevenSetupFail (now : Nat)
  | elevenOpen (prompt : String) (now : Nat)
  | elevenMessage (msg : ElevenMsg) (now : Nat)
  | elevenParseError (errMsg : String) (now : Nat)
  | elevenSocketError (now : Nat)
  | elevenClose (now : Nat)
  | twilioMessage (msg : TwilioMsg) (now : Nat)
  | twilioParseError (now : Nat)
  | twilioSocketError (now : Nat)
  | twilioClose (now : Nat)
deriving DecidableEq, Repr

deriving instance DecidableEq for Except

/-- The per-call mutable closure state of the `/outbound-media-stream`
handler, plus output logs for the effects it performs.  `elevenLabsWs = none`
models the variable still being `null`; `some rs` models a socket object with
readyState `rs`.  `uploads` records each `uploadConversationToStorage` call's
settled result; `elevenCloseCalls` / `twilioCloseCalls` count `.close()`
invocations on the respective sockets. -/
structure SessionState where
  agentId : String
  streamSid : Option String
  callSid : Option String
  customParameters : Option String
  elevenLabsWs : Option ReadyState
  conversationData : List TranscriptEvent
  twilioOut : List TwilioOutFrame
  elevenOut : List ElevenOutFrame
  uploads : List (Except String String)
  elevenCloseCalls : Nat
  twilioCloseCalls : Nat
deriving DecidableEq, Repr

/-- JavaScript truthiness of an optional string (`null`/`undefined` and `""`
are falsy). -/
def truthy : Option String → Bool
  | none => false
  | some s => !(s == "")

/-- `x || y` on two optional string fields, as used for
`message.audio?.chunk || message.audio_base64`: the first truthy value, else
`none` when the whole expression is falsy. -/
def coalesceChunk (a b : Option String) : Option String :=
  if truthy a then a else if truthy b then b else none

/-- Base64 alphabet used by `Buffer`. -/
def b64Alphabet : List Char :=
  "ABCDEFGHIJKLMNOPQRSTUVWXYZabcdefghijklmnopqrstuvwxyz0123456789+/".toList

/-- Value of one base64 character, `none` for non-alphabet characters
(ignored by Node's lenient decoder). -/
def b64Index (c : Char) : Option Nat :=
  if 'A' ≤ c ∧ c ≤ 'Z' then some (c.toNat - 65)
  else if 'a' ≤ c ∧ c ≤ 'z' then some (c.toNat - 97 + 26)
  else if '0' ≤ c ∧ c ≤ '9' then some (c.toNat - 48 + 52)
  else if c = '+' then some 62
  else if c = '/' then some 63
  else none

/-- Decode a run of sextets into bytes (trailing 2 or 3 sextets yield 1 or 2
bytes, as for padded base64 input). -/
def sextetsToBytes : List Nat → List Nat
  | a :: b :: c :: d :: rest =>
      (a * 4 + b / 16) :: ((b % 16) * 16 + c / 4) :: ((c % 4) * 64 + d)
        :: sextetsToBytes rest
  | [a, b] => [a * 4 + b / 16]
  | [a, b, c] => [a * 4 + b / 16, (b % 16) * 16 + c / 4]
  | _ => []

/-- Character of a sextet value. -/
def b64Char (n : Nat) : Char := b64Alphabet.getD n 'A'

/-- Encode bytes back to padded base64. -/
def bytesToB64 : List Nat → String
  | x :: y :: z :: rest =>
      String.mk [b64Char (x / 4), b64Char ((x % 4) * 16 + y / 16),
        b64Char ((y % 16) * 4 + z / 64), b64Char (z % 64)] ++ bytesToB64 rest
  | [x, y] => String.mk [b64Char (x / 4), b64Char ((x % 4) * 16 + y / 16),
      b64Char ((y % 16) * 4), '=']
  | [x] => String.mk [b64Char (x / 4), b64Char ((x % 4) * 16), '=', '=']
  | [] => ""

/-- `Buffer.from(payload, "base64").toString("base64")` from the `media`
case: decode (leniently) and re-encode. -/
def b64Roundtrip (s : String) : String :=
  bytesToB64 (sextetsToBytes (s.toList.filterMap b64Index))

/-- Double internal quotes, as csv-stringify does inside a quoted field. -/
def csvEscape (f : String) : String :=
  String.mk (f.toList.foldr
    (fun c acc => if c = '\"' then '\"' :: '\"' :: acc else c :: acc) [])

/-- Quote a CSV field when it needs quoting. -/
def csvQuote (f : String) : String :=
  if f.toList.any (fun c => c == ',' || c == '\"' || c == '\n') then
    "\"" ++ csvEscape f ++ "\""
  else f

/-- Column rendering of a `Speaker`. -/
def speakerStr : Speaker → String
  | Speaker.System => "System"
  | Speaker.User => "User"
  | Speaker.Bot => "Bot"

/-- One CSV record for a transcript event, in the fixed column order of
`generateConversationCSV`. -/
def csvRow (ev : TranscriptEvent) : String :=
  String.intercalate "," [csvQuote (toString ev.timestamp),
    csvQuote (speakerStr ev.speaker), csvQuote ev.messageType,
    csvQuote ev.content, csvQuote (toString ev.sizeBytes),
    csvQuote ev.additionalInfo]

/-- `generateConversationCSV`: header row then one record per event. -/
def generateConversationCSV (conversationData : List TranscriptEvent) : String :=
  "Timestamp,Speaker,Message Type,Content,Size (bytes),Additional Info\n"
    ++ String.join (conversationData.map (fun ev => csvRow ev ++ "\n"))

/-- `uploadConversationToStorage(callSid, csvData)`: rejects with
`"Missing required parameters for upload"` when `callSid` or `csvData` is
falsy; otherwise stores under `conversations/<callSid>_<timestamp>.csv` and
resolves with the locator.  The wall clock read inside is the `now` argument;
the network transfer itself is modelled as succeeding. -/
def uploadConversationToStorage (callSid : Option String) (csvData : String)
    (now : Nat) : Except String String :=
  if !(truthy callSid) || csvData == "" then
    Except.error "Missing required parameters for upload"
  else
    Except.ok ("conversations/" ++ callSid.getD "" ++ "_" ++ toString now ++ ".csv")

/-- Build one transcript row. -/
def mkEvent (ts : Nat) (sp : Speaker) (mt content : String) (size : Nat)
    (info : String) : TranscriptEvent :=
  { timestamp := ts, speaker := sp, messageType := mt, content := content,
    sizeBytes := size, additionalInfo := info }

/-- `conversationData.push(ev)`. -/
def pushCD (s : SessionState) (ev : TranscriptEvent) : SessionState :=
  { s with conversationData := s.conversationData ++ [ev] }

/-- `JSON.stringify({ agentId: ELEVENLABS_AGENT_ID })`. -/
def agentInfo (agentId : String) : String :=
  "\x7b\"agentId\":\"" ++ agentId ++ "\"\x7d"

/-- `JSON.stringify({ streamSid, callSid, customParameters })`. -/
def startInfo (sid csid : String) (cp : Option String) : String :=
  "\x7b\"streamSid\":\"" ++ sid ++ "\",\"callSid\":\"" ++ csid
    ++ "\",\"customParameters\":" ++ (match cp with | some c => c | none => "null")
    ++ "\x7d"

/-- `if (elevenLabsWs?.readyState === WebSocket.OPEN) elevenLabsWs.close()`,
the guarded close appearing in the `stop` case and the `ws` close handler. -/
def closeEleven (s : SessionState) : SessionState :=
  if s.elevenLabsWs = some ReadyState.OPEN then
    { s with elevenLabsWs := some ReadyState.CLOSING,
             elevenCloseCalls := s.elevenCloseCalls + 1 }
  else s

/-- Body of the ElevenLabs socket `message` handler (after a successful
`JSON.parse`): the audio-tracking push, then the `switch (message.type)`. -/
def handleElevenMsg (s : SessionState) (msg : ElevenMsg) (now : Nat) :
    SessionState :=
  match msg with
  | ElevenMsg.audio a b =>
      let s1 :=
        match coalesceChunk a b with
        | some chunk =>
            pushCD s (mkEvent now Speaker.Bot "Audio Response" "Audio chunk"
              chunk.length "")
        | none => s
      match s1.streamSid, coalesceChunk a b with
      | some sid, some chunk =>
          if sid = "" then s1
          else { s1 with twilioOut := s1.twilioOut
            ++ [TwilioOutFrame.media sid chunk "audio/x-mulaw; rate=8000"] }
      | _, _ => s1
  | ElevenMsg.agentResponse correction text serialized =>
      pushCD s (mkEvent now Speaker.System
        (if correction then "agent_response_correction" else "agent_response")
        (match text with
         | some t => if t = "" then serialized else t
         | none => serialized)
        0 "")
  | ElevenMsg.interruption =>
      match s.streamSid with
      | some sid =>
          if sid = "" then s
          else { s with twilioOut := s.twilioOut ++ [TwilioOutFrame.clear sid] }
      | none => s
  | ElevenMsg.ping eventId =>
      match eventId with
      | some e =>
          if e = "" then s
          else { s with elevenOut := s.elevenOut ++ [ElevenOutFrame.pong e] }
      | none => s
  | ElevenMsg.other msgType serialized =>
      pushCD s (mkEvent now Speaker.System "Unhandled" serialized 0
        ("Type: " ++ msgType))

/-- Body of the Twilio socket `message` handler (after a successful
`JSON.parse`): the `switch (msg.event)`. -/
def handleTwilioMsg (s : SessionState) (msg : TwilioMsg) (now : Nat) :
    SessionState :=
  match msg with
  | TwilioMsg.start sid csid cp =>
      let s1 := { s with streamSid := some sid, callSid := some csid,
                         customParameters := cp }
      pushCD s1 (mkEvent now Speaker.System "Call Start"
        "Twilio stream connected" 0 (startInfo sid csid cp))
  | TwilioMsg.media payload =>
      if s.elevenLabsWs = some ReadyState.OPEN then
        let s1 := { s with elevenOut := s.elevenOut
          ++ [ElevenOutFrame.userAudioChunk (b64Roundtrip payload)] }
        pushCD s1 (mkEvent now Speaker.User "Audio Input" "User audio chunk"
          payload.length "")
      else s
  | TwilioMsg.stop =>
      let s1 := pushCD s (mkEvent now Speaker.System "Call End"
        "Twilio stream disconnected" 0 "")
      let s2 :=
        if s1.conversationData.length > 0 then
          { s1 with uploads := s1.uploads
            ++ [uploadConversationToStorage s1.callSid
                  (generateConversationCSV s1.conversationData) now] }
        else s1
      closeEleven s2
  | TwilioMsg.other _ => s

/-- One step of the session: dispatch an inbound event to its handler.
Handlers registered on `elevenLabsWs` exist only once the socket object does
(`elevenLabsWs.isSome`); `setupElevenLabs`'s catch block and both sockets'
`error` handlers only log. -/
def step (s : SessionState) (e : SessionEvent) : SessionState :=
  match e with
  | SessionEvent.elevenSetupOk _ =>
      { s with elevenLabsWs := some ReadyState.CONNECTING }
  | SessionEvent.elevenSetupFail _ => s
  | SessionEvent.elevenOpen prompt now =>
      if s.elevenLabsWs.isSome then
        let s1 := pushCD s (mkEvent now Speaker.System "Initialization"
          "Conversation started with ElevenLabs" prompt.length
          (agentInfo s.agentId))
        { s1 with elevenLabsWs := some ReadyState.OPEN,
                  elevenOut := s1.elevenOut ++ [ElevenOutFrame.initConfig prompt] }
      else s
  | SessionEvent.elevenMessage msg now =>
      if s.elevenLabsWs.isSome then handleElevenMsg s msg now else s
  | SessionEvent.elevenParseError errMsg now =>
      if s.elevenLabsWs.isSome then
        pushCD s (mkEvent now Speaker.System "Error" "Failed to process message"
          0 errMsg)
      else s
  | SessionEvent.elevenSocketError _ => s
  | SessionEvent.elevenClose _ =>
      if s.elevenLabsWs.isSome then
        { s with elevenLabsWs := some ReadyState.CLOSED }
      else s
  | SessionEvent.twilioMessage msg now => handleTwilioMsg s msg now
  | SessionEvent.twilioParseError _ => s
  | SessionEvent.twilioSocketError _ => s
  | SessionEvent.twilioClose _ => closeEleven s

/-- Fresh closure state at `ws` accept time. -/
def mkInitialState (agentId : String) : SessionState :=
  { agentId := agentId, streamSid := none, callSid := none,
    customParameters := none, elevenLabsWs := none, conversationData := [],
    twilioOut := [], elevenOut := [], uploads := [], elevenCloseCalls := 0,
    twilioCloseCalls := 0 }

/-- Run a whole serialized event trace from the fresh state. -/
def run (agentId : String) (es : List SessionEvent) : SessionState :=
  es.foldl step (mkInitialState agentId)

/-- Wall clock carried by an event. -/
def eventClock : SessionEvent → Nat
  | SessionEvent.elevenSetupOk n => n
  | SessionEvent.elevenSetupFail n => n
  | SessionEvent.elevenOpen _ n => n
  | SessionEvent.elevenMessage _ n => n
  | SessionEvent.elevenParseError _ n => n
  | SessionEvent.elevenSocketError n => n
  | SessionEvent.elevenClose n => n
  | SessionEvent.twilioMessage _ n => n
  | SessionEvent.twilioParseError n => n
  | SessionEvent.twilioSocketError n => n
  | SessionEvent.twilioClose n => n

/-- Number of transcript rows with a given `messageType`. -/
def countEvents (t : String) (l : List TranscriptEvent) : Nat :=
  (l.filter (fun ev => ev.messageType == t)).length

/-- Is an event a Twilio `start` frame? -/
def isStartFrame : SessionEvent → Bool
  | SessionEvent.twilioMessage (TwilioMsg.start _ _ _) _ => true
  | _ => false

/-- Is an event a Twilio `stop` frame? -/
def isStopFrame : SessionEvent → Bool
  | SessionEvent.twilioMessage TwilioMsg.stop _ => true
  | _ => false

/-! ### Small projection lemmas about `closeEleven` -/

@[simp]
lemma closeEleven_conversationData (s : SessionState) :
    (closeEleven s).conversationData = s.conversationData := by
  unfold closeEleven; split <;> rfl

@[simp]
lemma closeEleven_uploads (s : SessionState) :
    (closeEleven s).uploads = s.uploads := by
  unfold closeEleven; split <;> rfl

@[simp]
lemma closeEleven_twilioOut (s : SessionState) :
    (closeEleven s).twilioOut = s.twilioOut := by
  unfold closeEleven; split <;> rfl

@[simp]
lemma closeEleven_elevenOut (s : SessionState) :
    (closeEleven s).elevenOut = s.elevenOut := by
  unfold closeEleven; split <;> rfl

@[simp]
lemma closeEleven_streamSid (s : SessionState) :
    (closeEleven s).streamSid = s.streamSid := by
  unfold closeEleven; split <;> rfl

@[simp]
lemma closeEleven_callSid (s : SessionState) :
    (closeEleven s).callSid = s.callSid := by
  unfold closeEleven; split <;> rfl

@[simp]
lemma closeEleven_twilioCloseCalls (s : SessionState) :
    (closeEleven s).twilioCloseCalls = s.twilioCloseCalls := by
  unfold closeEleven; split <;> rfl

/-- No branch of the session ever calls `ws.close()` on the Twilio socket:
the source contains no such call. -/
lemma handleElevenMsg_twilioCloseCalls (s : SessionState) (m : ElevenMsg)
    (n : Nat) : (handleElevenMsg s m n).twilioCloseCalls = s.twilioCloseCalls := by
  cases m with
  | audio a b =>
      simp only [handleElevenMsg]
      cases coalesceChunk a b <;> cases h : s.streamSid <;>
        simp [pushCD, h] <;> split <;> simp [pushCD]
  | agentResponse c t ser => rfl
  | interruption =>
      simp only [handleElevenMsg]
      cases h : s.streamSid <;> simp <;> split <;> rfl
  | ping eid =>
      simp only [handleElevenMsg]
      cases eid <;> simp <;> split <;> rfl
  | other ty ser => rfl

lemma handleTwilioMsg_twilioCloseCalls (s : SessionState) (m : TwilioMsg)
    (n : Nat) : (handleTwilioMsg s m n).twilioCloseCalls = s.twilioCloseCalls := by
  cases m with
  | start sid csid cp => rfl
  | media p => simp only [handleTwilioMsg]; split <;> rfl
  | stop =>
      simp only [handleTwilioMsg, closeEleven_twilioCloseCalls]
      split <;> rfl
  | other ev => rfl

/-- No branch of the session ever calls `ws.close()` on the Twilio socket:
the source contains no such call. -/
lemma step_twilioCloseCalls (s : SessionState) (e : SessionEvent) :
    (step s e).twilioCloseCalls = s.twilioCloseCalls := by
  cases e with
  | elevenSetupOk n => rfl
  | elevenSetupFail n => rfl
  | elevenOpen p n => simp only [step]; split <;> rfl
  | elevenMessage m n =>
      simp only [step]; split
      · exact handleElevenMsg_twilioCloseCalls s m n
      · rfl
  | elevenParseError m n => simp only [step]; split <;> rfl
  | elevenSocketError n => rfl
  | elevenClose n => simp only [step]; split <;> rfl
  | twilioMessage m n => exact handleTwilioMsg_twilioCloseCalls s m n
  | twilioParseError n => rfl
  | twilioSocketError n => rfl
  | twilioClose n => exact closeEleven_twilioCloseCalls s

/-! ### Concrete states used by witnesses and counterexamples -/

/-- A session whose ElevenLabs socket opened before any Twilio `start` frame:
`streamSid` is still unset. -/
def wsOpenState : SessionState :=
  run "A1" [SessionEvent.elevenSetupOk 0, SessionEvent.elevenOpen "p" 0]

/-- A session with the ElevenLabs socket open and a `start` frame processed
(`streamSid = "S1"`, `callSid = "C1"`). -/
def activeState : SessionState :=
  run "A1" [SessionEvent.elevenSetupOk 0, SessionEvent.elevenOpen "p" 0,
    SessionEvent.twilioMessage (TwilioMsg.start "S1" "C1" none) 1]

/-! ### Claims -/

/-- C8: for every keepalive ping `{type:"ping", ping_event:{event_id}}`
received from the AI provider, exactly one pong `{type:"pong", event_id}`
carrying the same `event_id` is sent back on the AI socket, and the exchange
produces no telephony-side frame (and no transcript row). -/
theorem C8_ping_pong (s : SessionState) (eid : String) (n : Nat)
    (hWs : s.elevenLabsWs.isSome) (hne : eid ≠ "") :
    (step s (SessionEvent.elevenMessage (ElevenMsg.ping (some eid)) n)).elevenOut
      = s.elevenOut ++ [ElevenOutFrame.pong eid] ∧
    (step s (SessionEvent.elevenMessage (ElevenMsg.ping (some eid)) n)).twilioOut
      = s.twilioOut ∧
    (step s (SessionEvent.elevenMessage (ElevenMsg.ping (some eid)) n)).conversationData
      = s.conversationData := by
  simp [step, hWs, handleElevenMsg, hne]

/-- Witness for C8 at `event_id = "x"` on a session with the AI socket open. -/
theorem C8_ping_pong_witness :
    (step wsOpenState (SessionEvent.elevenMessage (ElevenMsg.ping (some "x")) 1)).elevenOut
      = wsOpenState.elevenOut ++ [ElevenOutFrame.pong "x"] ∧
    (step wsOpenState (SessionEvent.elevenMessage (ElevenMsg.ping (some "x")) 1)).twilioOut
      = wsOpenState.twilioOut ∧
    (step wsOpenState (SessionEvent.elevenMessage (ElevenMsg.ping (some "x")) 1)).conversationData
      = wsOpenState.conversationData :=
  C8_ping_pong wsOpenState "x" 1 (by decide) (by decide)

/-- C9: an AI `interruption` frame received after `streamSid` is known emits
exactly one telephony `clear` frame carrying that `streamSid`; an
`interruption` received before `streamSid` is known leaves the session state
completely unchanged (no telephony frame, no crash). -/
theorem C9_interruption (s : SessionState) (n : Nat)
    (hWs : s.elevenLabsWs.isSome) :
    (∀ sid, s.streamSid = some sid → sid ≠ "" →
      step s (SessionEvent.elevenMessage ElevenMsg.interruption n)
        = { s with twilioOut := s.twilioOut ++ [TwilioOutFrame.clear sid] }) ∧
    (s.streamSid = none →
      step s (SessionEvent.elevenMessage ElevenMsg.interruption n) = s) := by
  constructor
  · intro sid hsid hne
    simp [step, hWs, handleElevenMsg, hsid, hne]
  · intro hnone
    simp [step, hWs, handleElevenMsg, hnone]

/-- Witness for C9: `interruption` after `start` emits `clear "S1"`;
`interruption` before `start` is a no-op. -/
theorem C9_interruption_witness :
    step activeState (SessionEvent.elevenMessage ElevenMsg.interruption 2)
      = { activeState with
          twilioOut := activeState.twilioOut ++ [TwilioOutFrame.clear "S1"] } ∧
    step wsOpenState (SessionEvent.elevenMessage ElevenMsg.interruption 2)
      = wsOpenState :=
  ⟨(C9_interruption activeState 2 (by decide)).1 "S1" (by decide) (by decide),
   (C9_interruption wsOpenState 2 (by decide)).2 (by decide)⟩

/-- C10: a Twilio `stop` frame arriving while `callSid` is still `null`
still runs finalization, but `uploadConversationToStorage` rejects with
`"Missing required parameters for upload"`; the rejection is caught (recorded
as a settled error, no crash) and the Call End row is still appended. -/
theorem C10_stop_before_start (s : SessionState) (n : Nat)
    (h : s.callSid = none) :
    (step s (SessionEvent.twilioMessage TwilioMsg.stop n)).uploads
      = s.uploads ++ [Except.error "Missing required parameters for upload"] ∧
    (step s (SessionEvent.twilioMessage TwilioMsg.stop n)).conversationData
      = s.conversationData ++ [mkEvent n Speaker.System "Call End"
          "Twilio stream disconnected" 0 ""] := by
  simp [step, handleTwilioMsg, pushCD, uploadConversationToStorage, h, truthy]

/-- Witness for C10: `stop` as the very first Twilio frame of a session. -/
theorem C10_stop_before_start_witness :
    (step (mkInitialState "A1") (SessionEvent.twilioMessage TwilioMsg.stop 0)).uploads
      = (mkInitialState "A1").uploads
        ++ [Except.error "Missing required parameters for upload"] ∧
    (step (mkInitialState "A1") (SessionEvent.twilioMessage TwilioMsg.stop 0)).conversationData
      = (mkInitialState "A1").conversationData
        ++ [mkEvent 0 Speaker.System "Call End" "Twilio stream disconnected" 0 ""] :=
  C10_stop_before_start (mkInitialState "A1") 0 (by decide)

/-- C4 counterexample: a failure of `setupElevenLabs` (signed-URL fetch or
connect error reaching its catch block) records nothing in the transcript —
in particular no Error event — refuting "the failure is recorded as an Error
transcript event". -/
theorem C4_counterexample :
    (run "A1" [SessionEvent.elevenSetupFail 0]).conversationData = [] ∧
    countEvents "Error" (run "A1" [SessionEvent.elevenSetupFail 0]).conversationData = 0 := by
  constructor
  · rfl
  · rfl

/-- C4 (amended): an AI-side setup failure does not crash the session and the
call proceeds telephony-only until teardown, but the failure is only logged to
the console — the session state is completely unchanged and no Error
transcript event is appended; a later `start` frame is still handled
normally. -/
theorem C4_setup_failure_nonfatal (s : SessionState) (n m : Nat)
    (sid csid : String) :
    step s (SessionEvent.elevenSetupFail n) = s ∧
    countEvents "Error" (step s (SessionEvent.elevenSetupFail n)).conversationData
      = countEvents "Error" s.conversationData ∧
    (step (step s (SessionEvent.elevenSetupFail n))
        (SessionEvent.twilioMessage (TwilioMsg.start sid csid none) m)).conversationData
      = s.conversationData ++ [mkEvent m Speaker.System "Call Start"
          "Twilio stream connected" 0 (startInfo sid csid none)] := by
  refine ⟨rfl, rfl, ?_⟩
  simp [step, handleTwilioMsg, pushCD]

/-- C5 counterexample: an unparseable Twilio frame (the `ws` message handler's
catch block) records no transcript row at all, refuting "for every inbound
frame (on either socket) whose payload cannot be parsed ... an Error
TranscriptEvent is appended". -/
theorem C5_counterexample :
    (run "A1" [SessionEvent.twilioParseError 0]).conversationData = [] ∧
    countEvents "Error" (run "A1" [SessionEvent.twilioParseError 0]).conversationData = 0 := by
  constructor
  · rfl
  · rfl

/-- C5 (amended): an unparseable AI-socket frame appends exactly one Error
TranscriptEvent and the session continues; an unparseable telephony frame is
dropped with only a console log — the session state is unchanged (no Error
event) and there is no crash on either side. -/
theorem C5_parse_error_handling (s : SessionState) (err : String) (n : Nat)
    (hWs : s.elevenLabsWs.isSome) :
    (step s (SessionEvent.elevenParseError err n)).conversationData
      = s.conversationData ++ [mkEvent n Speaker.System "Error"
          "Failed to process message" 0 err] ∧
    (step s (SessionEvent.elevenParseError err n)).twilioOut = s.twilioOut ∧
    (step s (SessionEvent.elevenParseError err n)).elevenOut = s.elevenOut ∧
    step s (SessionEvent.twilioParseError n) = s := by
  refine ⟨?_, ?_, ?_, rfl⟩ <;> simp [step, hWs, pushCD]

/-- Witness for C5 on a session with the AI socket open. -/
theorem C5_parse_error_handling_witness :
    (step wsOpenState (SessionEvent.elevenParseError "boom" 1)).conversationData
      = wsOpenState.conversationData ++ [mkEvent 1 Speaker.System "Error"
          "Failed to process message" 0 "boom"] ∧
    (step wsOpenState (SessionEvent.elevenParseError "boom" 1)).twilioOut
      = wsOpenState.twilioOut ∧
    (step wsOpenState (SessionEvent.elevenParseError "boom" 1)).elevenOut
      = wsOpenState.elevenOut ∧
    step wsOpenState (SessionEvent.twilioParseError 1) = wsOpenState :=
  C5_parse_error_handling wsOpenState "boom" 1 (by decide)

/-- C7: an AI socket close or error never tears down the telephony socket —
the error handler is a pure no-op, the close handler only marks the AI socket
closed (telephony output, transcript, uploads and the Twilio socket are
untouched), a subsequent inbound telephony media frame is simply not
forwarded (the AI-open guard blocks it, leaving the state unchanged), and no
session event ever invokes `close()` on the Twilio socket. -/
theorem C7_ai_close_keeps_call (s : SessionState) (n k : Nat) (p : String)
    (hWs : s.elevenLabsWs.isSome) :
    step s (SessionEvent.elevenSocketError n) = s ∧
    (step s (SessionEvent.elevenClose n)).twilioOut = s.twilioOut ∧
    (step s (SessionEvent.elevenClose n)).conversationData = s.conversationData ∧
    (step s (SessionEvent.elevenClose n)).uploads = s.uploads ∧
    (step s (SessionEvent.elevenClose n)).twilioCloseCalls = s.twilioCloseCalls ∧
    step (step s (SessionEvent.elevenClose n))
        (SessionEvent.twilioMessage (TwilioMsg.media p) k)
      = step s (SessionEvent.elevenClose n) ∧
    (∀ e : SessionEvent, (step s e).twilioCloseCalls = s.twilioCloseCalls) := by
  refine ⟨rfl, ?_, ?_, ?_, ?_, ?_, fun e => step_twilioCloseCalls s e⟩
  all_goals simp [step, hWs, handleTwilioMsg]

/-- Witness for C7 on a session with the AI socket open. -/
theorem C7_ai_close_keeps_call_witness :
    step wsOpenState (SessionEvent.elevenSocketError 1) = wsOpenState ∧
    (step wsOpenState (SessionEvent.elevenClose 1)).twilioOut
      = wsOpenState.twilioOut ∧
    step (step wsOpenState (SessionEvent.elevenClose 1))
        (SessionEvent.twilioMessage (TwilioMsg.media "AAAA") 2)
      = step wsOpenState (SessionEvent.elevenClose 1) ∧
    (step wsOpenState (SessionEvent.twilioClose 3)).twilioCloseCalls
      = wsOpenState.twilioCloseCalls := by
  have h := C7_ai_close_keeps_call wsOpenState 1 2 "AAAA" (by decide)
  exact ⟨h.1, h.2.1, h.2.2.2.2.2.1, h.2.2.2.2.2.2 (SessionEvent.twilioClose 3)⟩

/-- Trace for C1: the AI socket opens and delivers an audio chunk `"BBBB"`
before Twilio's `start` frame; then `start` arrives with
`streamSid = "S1"`. -/
def c1Trace : List SessionEvent :=
  [SessionEvent.elevenSetupOk 0, SessionEvent.elevenOpen "p" 0,
   SessionEvent.elevenMessage (ElevenMsg.audio (some "BBBB") none) 1,
   SessionEvent.twilioMessage (TwilioMsg.start "S1" "C1" none) 2]

/-- C1 counterexample: after an AI audio frame arrives with `streamSid` unset
and the `start` frame is then processed, no telephony frame was ever sent —
the chunk was dropped, not buffered, and `start` flushed nothing.  This
refutes "the frame is held (buffered) ... the buffer is flushed at that
point". -/
theorem C1_counterexample :
    (run "A1" c1Trace).twilioOut = [] ∧
    (run "A1" c1Trace).streamSid = some "S1" := by
  constructor
  · rfl
  · rfl

/-- C1 (amended): an AI audio frame received while `streamSid` is unset is
dropped — it produces no telephony frame, no state holds it back, and the
`start` frame emits no telephony frame either (there is no buffer to flush);
consequently no such frame is ever forwarded. -/
theorem C1_audio_before_start_dropped (s : SessionState) (a b : Option String)
    (n m : Nat) (sid csid : String) (cp : Option String)
    (hSid : s.streamSid = none) :
    (step s (SessionEvent.elevenMessage (ElevenMsg.audio a b) n)).twilioOut
      = s.twilioOut ∧
    (step s (SessionEvent.twilioMessage (TwilioMsg.start sid csid cp) m)).twilioOut
      = s.twilioOut := by
  constructor
  · by_cases hWs : s.elevenLabsWs.isSome
    · simp only [step, hWs, if_true, handleElevenMsg]
      cases h : coalesceChunk a b <;> simp [pushCD, hSid, h]
    · simp [step, hWs]
  · simp [step, handleTwilioMsg, pushCD]

/-- Witness for C1 on a session whose AI socket is open but whose
`streamSid` is unset. -/
theorem C1_audio_before_start_dropped_witness :
    (step wsOpenState (SessionEvent.elevenMessage
        (ElevenMsg.audio (some "BBBB") none) 1)).twilioOut
      = wsOpenState.twilioOut ∧
    (step wsOpenState (SessionEvent.twilioMessage
        (TwilioMsg.start "S1" "C1" none) 2)).twilioOut
      = wsOpenState.twilioOut :=
  C1_audio_before_start_dropped wsOpenState (some "BBBB") none 1 2 "S1" "C1"
    none (by decide)

/-- Trace for C3: `start` then a `media` frame while `elevenLabsWs` is still
`null` (setup has not completed). -/
def c3Trace : List SessionEvent :=
  [SessionEvent.twilioMessage (TwilioMsg.start "S1" "C1" none) 0,
   SessionEvent.twilioMessage (TwilioMsg.media "AAAA") 1]

/-- C3 counterexample: a telephony `media` frame received while the AI socket
is not open appends no Audio Input row (the transcript still holds only the
Call Start row), refuting "an AudioInput transcript event ... is always
appended, regardless of whether the AI socket is open". -/
theorem C3_counterexample :
    countEvents "Audio Input" (run "A1" c3Trace).conversationData = 0 ∧
    (run "A1" c3Trace).conversationData.length = 1 := by
  constructor
  · rfl
  · rfl

/-- C3 (amended): on a telephony `media` frame, the translation, the forward
to the AI socket and the Audio Input transcript row all happen together and
only when the AI socket is open; when it is not open the frame leaves the
session state completely unchanged (no Audio Input row). -/
theorem C3_media_audio_input (s : SessionState) (p : String) (n : Nat) :
    (s.elevenLabsWs = some ReadyState.OPEN →
      step s (SessionEvent.twilioMessage (TwilioMsg.media p) n)
        = { s with
            elevenOut := s.elevenOut
              ++ [ElevenOutFrame.userAudioChunk (b64Roundtrip p)],
            conversationData := s.conversationData
              ++ [mkEvent n Speaker.User "Audio Input" "User audio chunk"
                    p.length ""] }) ∧
    (¬ s.elevenLabsWs = some ReadyState.OPEN →
      step s (SessionEvent.twilioMessage (TwilioMsg.media p) n) = s) := by
  constructor
  · intro h
    simp [step, handleTwilioMsg, h, pushCD]
  · intro h
    simp [step, handleTwilioMsg, h]

/-- Witness for C3: a media frame on an open AI socket forwards and records;
the same frame on a fresh session (AI socket still `null`) is a no-op. -/
theorem C3_media_audio_input_witness :
    step wsOpenState (SessionEvent.twilioMessage (TwilioMsg.media "AAAA") 1)
      = { wsOpenState with
          elevenOut := wsOpenState.elevenOut
            ++ [ElevenOutFrame.userAudioChunk (b64Roundtrip "AAAA")],
          conversationData := wsOpenState.conversationData
            ++ [mkEvent 1 Speaker.User "Audio Input" "User audio chunk"
                  (String.length "AAAA") ""] } ∧
    step (mkInitialState "A1") (SessionEvent.twilioMessage (TwilioMsg.media "AAAA") 1)
      = mkInitialState "A1" :=
  ⟨(C3_media_audio_input wsOpenState "AAAA" 1).1 (by decide),
   (C3_media_audio_input (mkInitialState "A1") "AAAA" 1).2 (by decide)⟩

/-- Trace for C2: a normal `start`, then two teardown triggers of the same
kind — two Twilio `stop` frames. -/
def c2Trace : List SessionEvent :=
  [SessionEvent.twilioMessage (TwilioMsg.start "S1" "C1" none) 0,
   SessionEvent.twilioMessage TwilioMsg.stop 1,
   SessionEvent.twilioMessage TwilioMsg.stop 2]

/-- C2 counterexample: two teardown triggers (two `stop` frames) serialize and
upload the transcript twice and append two Call End rows — there is no
finalized flag — refuting "performs the transcript serialization and upload
exactly once". -/
theorem C2_counterexample :
    (run "A1" c2Trace).uploads.length = 2 ∧
    countEvents "Call End" (run "A1" c2Trace).conversationData = 2 := by
  constructor
  · rfl
  · rfl

/-- C2 (amended): for the ordinary teardown pair — a `stop` frame followed by
the telephony socket close — the upload runs exactly once (the close handler
never uploads) and the AI socket is closed exactly once (the
`readyState === OPEN` guard makes the second close a no-op, not an error);
but teardown is not idempotent in general: a repeated `stop` frame repeats
the serialization and upload. -/
theorem C2_stop_then_close (s : SessionState) (n m : Nat)
    (hWs : s.elevenLabsWs = some ReadyState.OPEN) :
    ((step (step s (SessionEvent.twilioMessage TwilioMsg.stop n))
        (SessionEvent.twilioClose m)).uploads).length = s.uploads.length + 1 ∧
    (step (step s (SessionEvent.twilioMessage TwilioMsg.stop n))
        (SessionEvent.twilioClose m)).elevenCloseCalls
      = s.elevenCloseCalls + 1 ∧
    (step (step s (SessionEvent.twilioMessage TwilioMsg.stop n))
        (SessionEvent.twilioClose m)).conversationData
      = s.conversationData ++ [mkEvent n Speaker.System "Call End"
          "Twilio stream disconnected" 0 ""] := by
  simp [step, handleTwilioMsg, closeEleven, hWs, pushCD]

/-- Witness for C2 on a session with the AI socket open: `stop` then socket
close yields one upload and one AI-socket close. -/
theorem C2_stop_then_close_witness :
    ((step (step activeState (SessionEvent.twilioMessage TwilioMsg.stop 2))
        (SessionEvent.twilioClose 3)).uploads).length
      = activeState.uploads.length + 1 ∧
    (step (step activeState (SessionEvent.twilioMessage TwilioMsg.stop 2))
        (SessionEvent.twilioClose 3)).elevenCloseCalls
      = activeState.elevenCloseCalls + 1 ∧
    (step (step activeState (SessionEvent.twilioMessage TwilioMsg.stop 2))
        (SessionEvent.twilioClose 3)).conversationData
      = activeState.conversationData ++ [mkEvent 2 Speaker.System "Call End"
          "Twilio stream disconnected" 0 ""] :=
  C2_stop_then_close activeState 2 3 (by decide)

/-! ### Transcript counting and ordering (C6) -/

lemma countEvents_append (t : String) (l1 l2 : List TranscriptEvent) :
    countEvents t (l1 ++ l2) = countEvents t l1 + countEvents t l2 := by
  simp [countEvents, List.filter_append]

lemma countEvents_singleton (t : String) (ev : TranscriptEvent) :
    countEvents t [ev] = if ev.messageType == t then 1 else 0 := by
  simp only [countEvents, List.filter]
  split <;> simp_all

/-- Every step either leaves the transcript unchanged (and is neither a
`start` nor a `stop` frame) or appends exactly one row, stamped with the
event's clock, which is a Call Start row iff the event is a `start` frame and
a Call End row iff it is a `stop` frame. -/
lemma step_cd_spec (s : SessionState) (e : SessionEvent) :
    ((step s e).conversationData = s.conversationData
        ∧ isStartFrame e = false ∧ isStopFrame e = false) ∨
    ∃ ev : TranscriptEvent,
      (step s e).conversationData = s.conversationData ++ [ev] ∧
      ev.timestamp = eventClock e ∧
      ((ev.messageType == "Call Start") = isStartFrame e) ∧
      ((ev.messageType == "Call End") = isStopFrame e) := by
  cases e with
  | elevenSetupOk n => exact Or.inl ⟨rfl, rfl, rfl⟩
  | elevenSetupFail n => exact Or.inl ⟨rfl, rfl, rfl⟩
  | elevenOpen p n =>
      by_cases h : s.elevenLabsWs.isSome
      · exact Or.inr ⟨mkEvent n Speaker.System "Initialization"
          "Conversation started with ElevenLabs" p.length (agentInfo s.agentId),
          by simp [step, h, pushCD], rfl, rfl, rfl⟩
      · exact Or.inl ⟨by simp [step, h], rfl, rfl⟩
  | elevenMessage m n =>
      by_cases h : s.elevenLabsWs.isSome
      · cases m with
        | audio a b =>
            cases hc : coalesceChunk a b with
            | none =>
                refine Or.inl ⟨?_, rfl, rfl⟩
                simp [step, h, handleElevenMsg, hc]
            | some chunk =>
                refine Or.inr ⟨mkEvent n Speaker.Bot "Audio Response"
                  "Audio chunk" chunk.length "", ?_, rfl, rfl, rfl⟩
                simp only [step, h, if_true, handleElevenMsg, hc]
                cases hs : s.streamSid with
                | none => simp [pushCD, hs]
                | some sid =>
                    by_cases hsid : sid = "" <;> simp [pushCD, hs, hsid]
        | agentResponse c t ser =>
            refine Or.inr ⟨mkEvent n Speaker.System
              (if c then "agent_response_correction" else "agent_response")
              (match t with
               | some u => if u = "" then ser else u
               | none => ser) 0 "", ?_, rfl, ?_, ?_⟩
            · simp [step, h, handleElevenMsg, pushCD]
            · cases c <;> rfl
            · cases c <;> rfl
        | interruption =>
            refine Or.inl ⟨?_, rfl, rfl⟩
            simp only [step, h, if_true, handleElevenMsg]
            cases hs : s.streamSid with
            | none => rfl
            | some sid => by_cases hsid : sid = "" <;> simp [hsid]
        | ping eid =>
            refine Or.inl ⟨?_, rfl, rfl⟩
            simp only [step, h, if_true, handleElevenMsg]
            cases eid with
            | none => rfl
            | some eidv => by_cases heid : eidv = "" <;> simp [heid]
        | other ty ser =>
            exact Or.inr ⟨mkEvent n Speaker.System "Unhandled" ser 0
              ("Type: " ++ ty), by simp [step, h, handleElevenMsg, pushCD],
              rfl, rfl, rfl⟩
      · exact Or.inl ⟨by simp [step, h], rfl, rfl⟩
  | elevenParseError msg n =>
      by_cases h : s.elevenLabsWs.isSome
      · exact Or.inr ⟨mkEvent n Speaker.System "Error"
          "Failed to process message" 0 msg, by simp [step, h, pushCD],
          rfl, rfl, rfl⟩
      · exact Or.inl ⟨by simp [step, h], rfl, rfl⟩
  | elevenSocketError n => exact Or.inl ⟨rfl, rfl, rfl⟩
  | elevenClose n =>
      by_cases h : s.elevenLabsWs.isSome
      · exact Or.inl ⟨by simp [step, h], rfl, rfl⟩
      · exact Or.inl ⟨by simp [step, h], rfl, rfl⟩
  | twilioMessage m n =>
      cases m with
      | start sid csid cp =>
          exact Or.inr ⟨mkEvent n Speaker.System "Call Start"
            "Twilio stream connected" 0 (startInfo sid csid cp),
            by simp [step, handleTwilioMsg, pushCD], rfl, rfl, rfl⟩
      | media p =>
          by_cases h : s.elevenLabsWs = some ReadyState.OPEN
          · exact Or.inr ⟨mkEvent n Speaker.User "Audio Input"
              "User audio chunk" p.length "",
              by simp [step, handleTwilioMsg, h, pushCD], rfl, rfl, rfl⟩
          · exact Or.inl ⟨by simp [step, handleTwilioMsg, h], rfl, rfl⟩
      | stop =>
          refine Or.inr ⟨mkEvent n Speaker.System "Call End"
            "Twilio stream disconnected" 0 "", ?_, rfl, rfl, rfl⟩
          simp only [step, handleTwilioMsg]
          rw [closeEleven_conversationData]
          split <;> simp [pushCD]
      | other ev => exact Or.inl ⟨rfl, rfl, rfl⟩
  | twilioParseError n => exact Or.inl ⟨rfl, rfl, rfl⟩
  | twilioSocketError n => exact Or.inl ⟨rfl, rfl, rfl⟩
  | twilioClose n =>
      exact Or.inl ⟨closeEleven_conversationData s, rfl, rfl⟩

lemma step_countEvents_start (s : SessionState) (e : SessionEvent) :
    countEvents "Call Start" (step s e).conversationData
      = countEvents "Call Start" s.conversationData
        + (if isStartFrame e then 1 else 0) := by
  rcases step_cd_spec s e with ⟨h, hs, _⟩ | ⟨ev, h, _, hst, _⟩
  · simp [h, hs]
  · rw [h, countEvents_append, countEvents_singleton, hst]

lemma step_countEvents_stop (s : SessionState) (e : SessionEvent) :
    countEvents "Call End" (step s e).conversationData
      = countEvents "Call End" s.conversationData
        + (if isStopFrame e then 1 else 0) := by
  rcases step_cd_spec s e with ⟨h, _, hp⟩ | ⟨ev, h, _, _, hpe⟩
  · simp [h, hp]
  · rw [h, countEvents_append, countEvents_singleton, hpe]

lemma foldl_countEvents_start (es : List SessionEvent) (s : SessionState) :
    countEvents "Call Start" (es.foldl step s).conversationData
      = countEvents "Call Start" s.conversationData
        + (es.filter isStartFrame).length := by
  induction es generalizing s with
  | nil => simp
  | cons e rest ih =>
      rw [List.foldl_cons, ih, step_countEvents_start]
      by_cases h : isStartFrame e <;> simp [h, List.filter_cons] <;> omega

lemma foldl_countEvents_stop (es : List SessionEvent) (s : SessionState) :
    countEvents "Call End" (es.foldl step s).conversationData
      = countEvents "Call End" s.conversationData
        + (es.filter isStopFrame).length := by
  induction es generalizing s with
  | nil => simp
  | cons e rest ih =>
      rw [List.foldl_cons, ih, step_countEvents_stop]
      by_cases h : isStopFrame e <;> simp [h, List.filter_cons] <;> omega

/-- Timestamps stay sorted along any trace whose handler clocks are
non-decreasing and bound the timestamps already present. -/
lemma foldl_cd_sorted (es : List SessionEvent) (s : SessionState) (b : Nat)
    (h1 : (s.conversationData.map TranscriptEvent.timestamp).Sorted (· ≤ ·))
    (h2 : ∀ ev ∈ s.conversationData, ev.timestamp ≤ b)
    (h3 : (es.map eventClock).Sorted (· ≤ ·))
    (h4 : ∀ e ∈ es, b ≤ eventClock e) :
    ((es.foldl step s).conversationData.map TranscriptEvent.timestamp).Sorted
      (· ≤ ·) := by
  induction es generalizing s b with
  | nil => simpa using h1
  | cons e rest ih =>
      rw [List.foldl_cons]
      rw [List.map_cons, List.sorted_cons] at h3
      have hbe : b ≤ eventClock e := h4 e (List.mem_cons_self e rest)
      have hrest : ∀ e2 ∈ rest, eventClock e ≤ eventClock e2 := by
        intro e2 he2
        exact h3.1 (eventClock e2) (List.mem_map_of_mem eventClock he2)
      rcases step_cd_spec s e with ⟨h, _, _⟩ | ⟨ev, h, ht, _, _⟩
      · refine ih (step s e) (eventClock e) (by rw [h]; exact h1) ?_ h3.2 hrest
        intro ev2 hev2
        rw [h] at hev2
        exact le_trans (h2 ev2 hev2) hbe
      · refine ih (step s e) (eventClock e) ?_ ?_ h3.2 hrest
        · rw [h, List.map_append]
          rw [List.Sorted, List.pairwise_append]
          refine ⟨h1, by simp, ?_⟩
          intro x hx y hy
          rcases List.mem_map.1 hx with ⟨ev1, hev1, rfl⟩
          simp only [List.map_cons, List.map_nil, List.mem_singleton] at hy
          rw [hy, ht]
          exact le_trans (h2 ev1 hev1) hbe
        · intro ev2 hev2
          rw [h] at hev2
          rcases List.mem_append.1 hev2 with h5 | h5
          · exact le_trans (h2 ev2 h5) hbe
          · rw [List.mem_singleton] at h5
            rw [h5, ht]

/-- C6 counterexample: a call ended by the telephony socket closing without a
`stop` frame gets no Call End row at all and is never finalized or uploaded,
refuting "for every call lifetime (including one ended by telephony socket
close rather than a stop frame), the finalized transcript contains ... exactly
one CallEnd event". -/
theorem C6_counterexample :
    countEvents "Call End"
      (run "A1" [SessionEvent.twilioMessage (TwilioMsg.start "S1" "C1" none) 0,
        SessionEvent.twilioClose 1]).conversationData = 0 ∧
    (run "A1" [SessionEvent.twilioMessage (TwilioMsg.start "S1" "C1" none) 0,
        SessionEvent.twilioClose 1]).uploads = [] := by
  constructor
  · rfl
  · rfl

/-- C6 (amended): for a call lifetime containing exactly one telephony
`start` frame and exactly one `stop` frame, the transcript contains exactly
one Call Start row and exactly one Call End row, and when the handlers run
with non-decreasing wall clocks the rows appear in non-decreasing timestamp
order; a call ended only by socket close gets no Call End row and no upload,
and duplicated `start`/`stop` frames duplicate the rows. -/
theorem C6_one_start_one_stop (agentId : String) (es : List SessionEvent)
    (h1 : (es.filter isStartFrame).length = 1)
    (h2 : (es.filter isStopFrame).length = 1)
    (hmono : (es.map eventClock).Sorted (· ≤ ·)) :
    countEvents "Call Start" (run agentId es).conversationData = 1 ∧
    countEvents "Call End" (run agentId es).conversationData = 1 ∧
    ((run agentId es).conversationData.map TranscriptEvent.timestamp).Sorted
      (· ≤ ·) := by
  refine ⟨?_, ?_, ?_⟩
  · rw [run, foldl_countEvents_start, h1]
    rfl
  · rw [run, foldl_countEvents_stop, h2]
    rfl
  · exact foldl_cd_sorted es (mkInitialState agentId) 0 (by simp [mkInitialState])
      (by simp [mkInitialState]) hmono (fun e _ => Nat.zero_le _)

/-- Trace for the C6 witness: one `start`, one `stop`, clocks 0 then 1. -/
def c6WitnessTrace : List SessionEvent :=
  [SessionEvent.twilioMessage (TwilioMsg.start "S1" "C1" none) 0,
   SessionEvent.twilioMessage TwilioMsg.stop 1]

/-- Witness for C6 on the two-frame lifetime `start; stop`. -/
theorem C6_one_start_one_stop_witness :
    countEvents "Call Start" (run "A1" c6WitnessTrace).conversationData = 1 ∧
    countEvents "Call End" (run "A1" c6WitnessTrace).conversationData = 1 ∧
    ((run "A1" c6WitnessTrace).conversationData.map
        TranscriptEvent.timestamp).Sorted (· ≤ ·) :=
  C6_one_start_one_stop "A1" c6WitnessTrace (by decide) (by decide) (by decide)

end AICall
